import Mathlib

/-!
Verification of the 2D lattice polymer module (`Model_basis.py`).

The embedding mirrors the source: `manhattan`, `neighbors_2d`, the
`Polymer2D` record with `validate`, `bonds`, `summary`, the
`straight_chain` initializer, and the bond-preview logic of `main`.
Python exceptions are modelled with `Except` / `Option`.
-/

/-- A lattice coordinate: `Pos2D = Tuple[int, int]`. -/
abbrev Pos2D := Int × Int

/-- `manhattan(a, b)`: `abs(a[0]-b[0]) + abs(a[1]-b[1])`. -/
def manhattan (a b : Pos2D) : Nat :=
  (a.1 - b.1).natAbs + (a.2 - b.2).natAbs

/-- `neighbors_2d(p)`: the four neighbor moves `(x+1,y), (x-1,y), (x,y+1), (x,y-1)`. -/
def neighbors_2d (p : Pos2D) : List Pos2D :=
  [(p.1 + 1, p.2), (p.1 - 1, p.2), (p.1, p.2 + 1), (p.1, p.2 - 1)]

/-- The errors raised by `Polymer2D.validate` (`ValueError` with the two
message shapes of the source: overlap carries no positional data; a broken
bond carries the first offending index `i` — the pair `(i, i+1)` — and the
two coordinates involved). -/
inductive ValidateError where
  | overlap : ValidateError
  | brokenBond (i : Nat) (a b : Pos2D) : ValidateError
deriving DecidableEq, Repr

/-- `Polymer2D`: coordinates `(x, y)` for each monomer. -/
structure Polymer2D where
  coords : List Pos2D
deriving DecidableEq, Repr

namespace Polymer2D

/-- `N`: number of monomers, `len(self.coords)`. -/
def N (p : Polymer2D) : Nat := p.coords.length

/-- The connectivity loop of `validate`: scans adjacent pairs starting at
index `k`, raising on the first pair at Manhattan distance other than 1. -/
def checkBonds : List Pos2D → Nat → Except ValidateError Unit
  | a :: b :: rest, k =>
      if manhattan a b ≠ 1 then
        Except.error (ValidateError.brokenBond k a b)
      else
        checkBonds (b :: rest) (k + 1)
  | _, _ => Except.ok ()

/-- `validate`: self-avoidance first (`len(set(coords)) != N`), then
connectivity of each adjacent pair. -/
def validate (p : Polymer2D) : Except ValidateError Unit :=
  if p.coords.dedup.length ≠ p.N then
    Except.error ValidateError.overlap
  else
    checkBonds p.coords 0

/-- `bonds`: the index pairs `(i, i+1)` for `i` in `range(N - 1)`. -/
def bonds (p : Polymer2D) : List (Nat × Nat) :=
  (List.range (p.N - 1)).map fun i => (i, i + 1)

/-- The data printed by `summary`: `N`, `coords[0]`, `coords[-1]`, and
`min`/`max` of the `x` and `y` coordinate lists. -/
structure SummaryData where
  count : Nat
  first : Pos2D
  last : Pos2D
  xmin : Int
  xmax : Int
  ymin : Int
  ymax : Int
deriving DecidableEq, Repr

/-- `summary`: fails (as Python `coords[0]` / `min([])` do) exactly when
the coordinate list is empty; otherwise reports `N`, the first and last
coordinates, and the min/max of the `x` and `y` coordinates. -/
def summary (p : Polymer2D) : Option SummaryData := do
  let xs := p.coords.map Prod.fst
  let ys := p.coords.map Prod.snd
  let first ← p.coords.head?
  let last ← p.coords.getLast?
  let xmin ← xs.min?
  let xmax ← xs.max?
  let ymin ← ys.min?
  let ymax ← ys.max?
  pure ⟨p.N, first, last, xmin, xmax, ymin, ymax⟩

end Polymer2D

/-- The coordinate list built by `straight_chain`: `[(i, 0) for i in range(N)]`. -/
def chainCoords (n : Int) : List Pos2D :=
  (List.range n.toNat).map fun i : Nat => ((i : Int), (0 : Int))

/-- `straight_chain(N)`: builds the straight chain, validates it, and
returns it; a validation failure propagates. -/
def straight_chain (n : Int) : Except ValidateError Polymer2D :=
  let poly : Polymer2D := ⟨chainCoords n⟩
  poly.validate.map fun _ => poly

/-- The bond preview printed by `main`: `poly.bonds()[:10]`. -/
def mainBondPreview (p : Polymer2D) : List (Nat × Nat) :=
  p.bonds.take 10

/-- Whether `main` prints the ellipsis marker: `"..." if poly.N > 11 else ""`. -/
def mainEllipsis (p : Polymer2D) : Bool :=
  decide (p.N > 11)

/-! ### Helper lemmas -/

/-- The bond predicate checked by `validate`. -/
def isBond (a b : Pos2D) : Prop := manhattan a b = 1

lemma checkBonds_ok_iff (l : List Pos2D) (k : Nat) :
    Polymer2D.checkBonds l k = Except.ok () ↔ List.Chain' isBond l := by
  induction l generalizing k with
  | nil => simp [Polymer2D.checkBonds]
  | cons a t ih =>
    cases t with
    | nil => simp [Polymer2D.checkBonds]
    | cons b r =>
      by_cases h : manhattan a b = 1
      · simp [Polymer2D.checkBonds, h, ih, List.chain'_cons, isBond]
      · simp [Polymer2D.checkBonds, h, List.chain'_cons, isBond]

lemma dedup_length_eq_iff (l : List Pos2D) :
    l.dedup.length = l.length ↔ l.Nodup := by
  constructor
  · intro h
    have he : l.dedup = l := (List.dedup_sublist l).eq_of_length h
    rw [← he]
    exact List.nodup_dedup l
  · intro h
    rw [List.dedup_eq_self.2 h]

lemma validate_ok_chain_iff (p : Polymer2D) :
    p.validate = Except.ok () ↔ p.coords.Nodup ∧ List.Chain' isBond p.coords := by
  unfold Polymer2D.validate
  by_cases h : p.coords.dedup.length = p.coords.length
  · rw [if_neg (by simp [Polymer2D.N, h])]
    have hn : p.coords.Nodup := (dedup_length_eq_iff _).1 h
    simp [checkBonds_ok_iff, hn]
  · rw [if_pos (by simpa [Polymer2D.N] using h)]
    constructor
    · intro hc; cases hc
    · intro ⟨hn, _⟩
      exact absurd ((dedup_length_eq_iff _).2 hn) h

lemma chain'_iff_getD (l : List Pos2D) :
    List.Chain' isBond l ↔
      ∀ i, i + 1 < l.length →
        manhattan (l.getD i (0, 0)) (l.getD (i + 1) (0, 0)) = 1 := by
  rw [List.chain'_iff_get]
  constructor
  · intro h i hi
    have h1 : i < l.length := by omega
    have h2 : i + 1 < l.length := hi
    have := h i (by omega)
    rw [List.getD_eq_getElem?_getD, List.getD_eq_getElem?_getD,
      List.getElem?_eq_getElem h1, List.getElem?_eq_getElem h2]
    simpa [isBond, List.get_eq_getElem] using this
  · intro h i hi
    have h1 : i < l.length := by omega
    have h2 : i + 1 < l.length := by omega
    have := h i h2
    rw [List.getD_eq_getElem?_getD, List.getD_eq_getElem?_getD,
      List.getElem?_eq_getElem h1, List.getElem?_eq_getElem h2] at this
    simpa [isBond, List.get_eq_getElem] using this

lemma checkBonds_error_first (l : List Pos2D) (k i : Nat)
    (hi : i + 1 < l.length)
    (hbad : manhattan (l.getD i (0, 0)) (l.getD (i + 1) (0, 0)) ≠ 1)
    (hfirst : ∀ j, j < i → manhattan (l.getD j (0, 0)) (l.getD (j + 1) (0, 0)) = 1) :
    Polymer2D.checkBonds l k =
      Except.error
        (ValidateError.brokenBond (k + i) (l.getD i (0, 0)) (l.getD (i + 1) (0, 0))) := by
  induction l generalizing k i with
  | nil => simp at hi
  | cons a t ih =>
    cases t with
    | nil => simp at hi
    | cons b r =>
      cases i with
      | zero =>
        simp only [List.getD_cons_zero, List.getD_cons_succ] at hbad ⊢
        simp [Polymer2D.checkBonds, hbad]
      | succ m =>
        have h0 : manhattan a b = 1 := by
          simpa using hfirst 0 (Nat.succ_pos m)
        have hrec := ih (k + 1) m
          (by simpa using hi)
          (by simpa using hbad)
          (fun j hj => by simpa using hfirst (j + 1) (by omega))
        simp only [List.getD_cons_succ]
        rw [Polymer2D.checkBonds, if_neg (by simp [h0])]
        have hk : k + 1 + m = k + (m + 1) := by omega
        rw [hk] at hrec
        exact hrec

instance : Std.Antisymm (fun a b : Int => a ≤ b) :=
  ⟨fun h1 h2 => Int.le_antisymm h1 h2⟩

lemma int_min?_spec {l : List Int} {m : Int} (h : l.min? = some m) :
    m ∈ l ∧ ∀ x ∈ l, m ≤ x := by
  rw [List.min?_eq_some_iff (fun a => le_refl a) (fun a b => min_choice a b)
    (fun a b c => le_min_iff)] at h
  exact h

lemma int_max?_spec {l : List Int} {m : Int} (h : l.max? = some m) :
    m ∈ l ∧ ∀ x ∈ l, x ≤ m := by
  rw [List.max?_eq_some_iff (fun a => le_refl a) (fun a b => max_choice a b)
    (fun a b c => max_le_iff)] at h
  exact h

lemma chainCoords_nodup (n : Int) : (chainCoords n).Nodup := by
  unfold chainCoords
  exact List.Nodup.map
    (fun i j hij => by simpa using congrArg Prod.fst hij)
    (List.nodup_range n.toNat)

lemma chainCoords_chain' (n : Int) : List.Chain' isBond (chainCoords n) := by
  unfold chainCoords
  rw [List.chain'_map]
  cases h : n.toNat with
  | zero => simp
  | succ m =>
    rw [show m + 1 = Nat.succ m from rfl, List.chain'_range_succ]
    intro i _
    show manhattan ((i : Int), 0) ((i.succ : Int), 0) = 1
    have h1 : (i : Int) - (i.succ : Int) = -1 := by push_cast; ring
    simp [manhattan, h1]

lemma validate_chainCoords (n : Int) :
    (Polymer2D.mk (chainCoords n)).validate = Except.ok () :=
  (validate_ok_chain_iff _).2 ⟨chainCoords_nodup n, chainCoords_chain' n⟩

/-! ### Claim theorems -/

/-- C1: `validate` returns normally (no error) if and only if the polymer is a
legal self-avoiding walk: the coordinates are pairwise distinct and every
consecutive pair `(coords[i], coords[i+1])` is at Manhattan distance exactly 1;
otherwise it raises a descriptive error. -/
theorem validate_ok_iff_saw (p : Polymer2D) :
    p.validate = Except.ok () ↔
      (List.Pairwise (fun a b => a ≠ b) p.coords ∧
        ∀ i, i + 1 < p.coords.length →
          manhattan (p.coords.getD i (0, 0)) (p.coords.getD (i + 1) (0, 0)) = 1) := by
  rw [validate_ok_chain_iff, chain'_iff_getD]
  exact Iff.rfl

/-- C2: any coordinate sequence with a duplicate position fails validation
with the overlap (self-avoidance) error — never a bond error — because the
self-avoidance check runs strictly before the connectivity check. -/
theorem validate_dup_overlap (p : Polymer2D) (h : ¬ p.coords.Nodup) :
    p.validate = Except.error ValidateError.overlap := by
  unfold Polymer2D.validate
  rw [if_pos]
  intro heq
  exact h ((dedup_length_eq_iff _).1 heq)

/-- C2 witness: `[(0,0),(1,0),(1,0)]` has a duplicate and also breaks the
zero-distance bond `(1,2)`, yet validation reports the overlap error. -/
theorem validate_dup_overlap_witness :
    (¬ (Polymer2D.mk [(0, 0), (1, 0), (1, 0)]).coords.Nodup) ∧
      (Polymer2D.mk [(0, 0), (1, 0), (1, 0)]).validate
        = Except.error ValidateError.overlap :=
  ⟨by decide, validate_dup_overlap ⟨[(0, 0), (1, 0), (1, 0)]⟩ (by decide)⟩

/-- C3: on an all-distinct sequence whose first offending consecutive pair is
`(i, i+1)` (Manhattan distance ≠ 1 there, = 1 for all earlier pairs),
`validate` raises the bond error carrying the index `i` — the reported index
pair `(i, i+1)` — and the two coordinates involved. -/
theorem validate_first_broken_bond (p : Polymer2D) (i : Nat)
    (hn : p.coords.Nodup) (hi : i + 1 < p.coords.length)
    (hbad : manhattan (p.coords.getD i (0, 0)) (p.coords.getD (i + 1) (0, 0)) ≠ 1)
    (hfirst : ∀ j, j < i →
      manhattan (p.coords.getD j (0, 0)) (p.coords.getD (j + 1) (0, 0)) = 1) :
    p.validate = Except.error
      (ValidateError.brokenBond i
        (p.coords.getD i (0, 0)) (p.coords.getD (i + 1) (0, 0))) := by
  unfold Polymer2D.validate
  rw [if_neg (by simp [Polymer2D.N, (dedup_length_eq_iff _).2 hn])]
  simpa using checkBonds_error_first p.coords 0 i hi hbad hfirst

/-- C3 witness: for `[(0,0),(1,0),(3,0)]` the reported bond error is at index
pair `(1,2)` with coordinates `(1,0)` and `(3,0)`. -/
theorem validate_first_broken_bond_witness :
    (Polymer2D.mk [(0, 0), (1, 0), (3, 0)]).validate
      = Except.error (ValidateError.brokenBond 1 (1, 0) (3, 0)) :=
  validate_first_broken_bond ⟨[(0, 0), (1, 0), (3, 0)]⟩ 1
    (by decide) (by decide) (by decide)
    (by intro j hj; interval_cases j; decide)

/-- C4: for every `N ≥ 1`, `straight_chain(N)` succeeds and returns a polymer
with exactly `N` monomers at coordinates `(0,0), (1,0), …, (N-1,0)`, and that
polymer passes validation. -/
theorem straight_chain_spec (n : Int) (h : 1 ≤ n) :
    ∃ p : Polymer2D, straight_chain n = Except.ok p ∧
      (p.N : Int) = n ∧
      (∀ i : Nat, i < p.N → p.coords.getD i (0, 0) = ((i : Int), 0)) ∧
      p.validate = Except.ok () := by
  have hval := validate_chainCoords n
  refine ⟨⟨chainCoords n⟩, ?_, ?_, ?_, hval⟩
  · simp only [straight_chain]
    rw [hval]
    rfl
  · show ((chainCoords n).length : Int) = n
    unfold chainCoords
    rw [List.length_map, List.length_range]
    exact Int.toNat_of_nonneg (by omega)
  · intro i hi
    have hi' : i < (chainCoords n).length := hi
    rw [List.getD_eq_getElem?_getD, List.getElem?_eq_getElem hi']
    simp [chainCoords]

/-- C4 witness: `straight_chain(5)` succeeds with a 5-monomer polymer. -/
theorem straight_chain_spec_witness :
    (1 : Int) ≤ 5 ∧ ∃ p : Polymer2D, straight_chain 5 = Except.ok p ∧ (p.N : Int) = 5 :=
  ⟨by decide,
   (straight_chain_spec 5 (by decide)).elim fun p hp => ⟨p, hp.1, hp.2.1⟩⟩

/-- C5: for every `N ≤ 0`, `straight_chain(N)` returns without error,
producing the degenerate empty chain. -/
theorem straight_chain_nonpos (n : Int) (h : n ≤ 0) :
    straight_chain n = Except.ok (Polymer2D.mk []) := by
  have h0 : n.toNat = 0 := Int.toNat_of_nonpos h
  simp only [straight_chain, chainCoords, h0, List.range_zero, List.map_nil]
  rfl

/-- C5 witness: `straight_chain(-3)` succeeds with the empty chain. -/
theorem straight_chain_nonpos_witness :
    (-3 : Int) ≤ 0 ∧ straight_chain (-3) = Except.ok (Polymer2D.mk []) :=
  ⟨by decide, straight_chain_nonpos (-3) (by decide)⟩

lemma foldl_op_assoc {op : Int → Int → Int}
    (hop : ∀ a b c, op (op a b) c = op a (op b c)) (x : Int) :
    ∀ (r : List Int) (b : Int), op x (r.foldl op b) = r.foldl op (op x b)
  | [], _ => rfl
  | c :: r, b => by
    show op x (r.foldl op (op b c)) = r.foldl op (op (op x b) c)
    rw [foldl_op_assoc hop x r (op b c), hop]

lemma min?_elim_foldl (x : Int) (l : List Int) :
    l.min?.elim x (min x) = l.foldl min x := by
  cases l with
  | nil => rfl
  | cons b r =>
    show min x (r.foldl min b) = r.foldl min (min x b)
    exact foldl_op_assoc (fun a b c => min_assoc a b c) x r b

lemma max?_elim_foldl (x : Int) (l : List Int) :
    l.max?.elim x (max x) = l.foldl max x := by
  cases l with
  | nil => rfl
  | cons b r =>
    show max x (r.foldl max b) = r.foldl max (max x b)
    exact foldl_op_assoc (fun a b c => max_assoc a b c) x r b

/-- Shared summary computation lemma: on a nonempty coordinate list the
summary succeeds and its fields are the count, the head, the last element,
and attained lower/upper bounds of the `x` and `y` coordinate lists. -/
lemma summary_cons_spec (a : Pos2D) (t : List Pos2D) :
    ∃ s : Polymer2D.SummaryData,
      (Polymer2D.mk (a :: t)).summary = some s ∧
      s.count = t.length + 1 ∧
      s.first = a ∧
      (a :: t).getLast? = some s.last ∧
      s.xmin ∈ (a :: t).map Prod.fst ∧ (∀ x ∈ (a :: t).map Prod.fst, s.xmin ≤ x) ∧
      s.xmax ∈ (a :: t).map Prod.fst ∧ (∀ x ∈ (a :: t).map Prod.fst, x ≤ s.xmax) ∧
      s.ymin ∈ (a :: t).map Prod.snd ∧ (∀ y ∈ (a :: t).map Prod.snd, s.ymin ≤ y) ∧
      s.ymax ∈ (a :: t).map Prod.snd ∧ (∀ y ∈ (a :: t).map Prod.snd, y ≤ s.ymax) := by
  have hlast : (a :: t).getLast? = some ((a :: t).getLast (List.cons_ne_nil a t)) :=
    List.getLast?_eq_getLast _ _
  have hxmin : ((a :: t).map Prod.fst).min? = some ((t.map Prod.fst).foldl min a.1) := rfl
  have hxmax : ((a :: t).map Prod.fst).max? = some ((t.map Prod.fst).foldl max a.1) := rfl
  have hymin : ((a :: t).map Prod.snd).min? = some ((t.map Prod.snd).foldl min a.2) := rfl
  have hymax : ((a :: t).map Prod.snd).max? = some ((t.map Prod.snd).foldl max a.2) := rfl
  obtain ⟨hxmin_mem, hxmin_le⟩ := int_min?_spec hxmin
  obtain ⟨hxmax_mem, hxmax_le⟩ := int_max?_spec hxmax
  obtain ⟨hymin_mem, hymin_le⟩ := int_min?_spec hymin
  obtain ⟨hymax_mem, hymax_le⟩ := int_max?_spec hymax
  refine ⟨⟨t.length + 1, a, (a :: t).getLast (List.cons_ne_nil a t),
      (t.map Prod.fst).foldl min a.1, (t.map Prod.fst).foldl max a.1,
      (t.map Prod.snd).foldl min a.2, (t.map Prod.snd).foldl max a.2⟩,
    ?_, rfl, rfl, hlast,
    hxmin_mem, hxmin_le, hxmax_mem, hxmax_le,
    hymin_mem, hymin_le, hymax_mem, hymax_le⟩
  simp [Polymer2D.summary, Polymer2D.N, hlast, hxmin, hxmax, hymin, hymax]
  exact ⟨min?_elim_foldl a.1 (t.map Prod.fst), max?_elim_foldl a.1 (t.map Prod.fst),
    min?_elim_foldl a.2 (t.map Prod.snd), max?_elim_foldl a.2 (t.map Prod.snd)⟩

/-- C7: `summary` fails exactly on the empty polymer (`N = 0`); it is defined
precisely under the precondition `N ≥ 1`. -/
theorem summary_none_iff (p : Polymer2D) :
    p.summary = none ↔ p.N = 0 := by
  constructor
  · intro hnone
    by_contra hN
    have h : p.coords ≠ [] := fun hc => hN (by simp [Polymer2D.N, hc])
    obtain ⟨a, t, hc⟩ := List.exists_cons_of_ne_nil h
    obtain ⟨s, hs, -⟩ := summary_cons_spec a t
    have hp : p = Polymer2D.mk (a :: t) := by cases p; simpa using hc
    rw [hp, hs] at hnone
    cases hnone
  · intro hN
    have hc : p.coords = [] := List.length_eq_zero.1 hN
    have hp : p = Polymer2D.mk [] := by cases p; simpa using hc
    rw [hp]
    rfl

/-- C8: for every non-empty polymer, `summary` succeeds and reports the
monomer count, the first and last coordinates, and the inclusive (attained)
min/max of the `x` and `y` coordinates across all monomers. -/
theorem summary_reports (p : Polymer2D) (h : p.coords ≠ []) :
    ∃ s : Polymer2D.SummaryData,
      p.summary = some s ∧
      s.count = p.N ∧
      p.coords.head? = some s.first ∧
      p.coords.getLast? = some s.last ∧
      s.xmin ∈ p.coords.map Prod.fst ∧ (∀ x ∈ p.coords.map Prod.fst, s.xmin ≤ x) ∧
      s.xmax ∈ p.coords.map Prod.fst ∧ (∀ x ∈ p.coords.map Prod.fst, x ≤ s.xmax) ∧
      s.ymin ∈ p.coords.map Prod.snd ∧ (∀ y ∈ p.coords.map Prod.snd, s.ymin ≤ y) ∧
      s.ymax ∈ p.coords.map Prod.snd ∧ (∀ y ∈ p.coords.map Prod.snd, y ≤ s.ymax) := by
  obtain ⟨a, t, hc⟩ := List.exists_cons_of_ne_nil h
  have hp : p = Polymer2D.mk (a :: t) := by cases p; simpa using hc
  subst hp
  obtain ⟨s, hs, hcount, hfirst, hrest⟩ := summary_cons_spec a t
  exact ⟨s, hs, by simpa [Polymer2D.N] using hcount, by simp [hfirst], hrest⟩

/-- C8 witness: at `straight_chain(5)` the summary reports `N = 5`,
first `(0,0)`, last `(4,0)`, `x` range `[0,4]`, `y` range `[0,0]`. -/
theorem summary_reports_witness :
    (Polymer2D.mk (chainCoords 5)).coords ≠ [] ∧
      (∃ s, (Polymer2D.mk (chainCoords 5)).summary = some s) ∧
      (Polymer2D.mk (chainCoords 5)).summary
        = some ⟨5, (0, 0), (4, 0), 0, 4, 0, 0⟩ :=
  ⟨by decide,
   (summary_reports ⟨chainCoords 5⟩ (by decide)).elim fun s hs => ⟨s, hs.1⟩,
   by decide⟩

/-- C6 counterexample: at `N = 12` the chain has exactly 11 bonds — not more
than 11 — yet `main` prints the ellipsis marker (`poly.N > 11` holds), so the
ellipsis does not appear exactly when more than 11 bonds exist. -/
theorem mainEllipsis_counterexample :
    mainEllipsis (Polymer2D.mk (chainCoords 12)) = true ∧
      ¬ (Polymer2D.mk (chainCoords 12)).bonds.length > 11 := by
  exact ⟨by decide, by decide⟩

/-- C6 amended: the bond preview shows at most the first 10 bond index pairs
(it is the length-`min 10 (N-1)` initial segment of the bond list), and the
ellipsis marker appears exactly when more than 10 bonds exist, i.e. when
`N > 11`. -/
theorem mainPreview_spec (p : Polymer2D) :
    (mainBondPreview p).length = min 10 p.bonds.length ∧
      mainBondPreview p ++ p.bonds.drop 10 = p.bonds ∧
      (mainEllipsis p = true ↔ 10 < p.bonds.length) := by
  refine ⟨by simp [mainBondPreview], List.take_append_drop 10 p.bonds, ?_⟩
  have hb : p.bonds.length = p.N - 1 := by simp [Polymer2D.bonds]
  rw [mainEllipsis, decide_eq_true_eq, hb]
  omega

/-- C9: `neighbors_2d(p)` returns exactly four coordinates, each at Manhattan
distance 1 from `p`, in the fixed order `(x+1,y), (x-1,y), (x,y+1), (x,y-1)`. -/
theorem neighbors_spec (p : Pos2D) :
    (neighbors_2d p).length = 4 ∧
      (∀ q ∈ neighbors_2d p, manhattan p q = 1) ∧
      neighbors_2d p = [(p.1 + 1, p.2), (p.1 - 1, p.2), (p.1, p.2 + 1), (p.1, p.2 - 1)] := by
  refine ⟨rfl, ?_, rfl⟩
  intro q hq
  simp only [neighbors_2d, List.mem_cons, List.not_mem_nil, or_false] at hq
  rcases hq with h | h | h | h <;> subst h <;> simp [manhattan]

/-- C10: every polymer with fewer than two monomers passes validation
vacuously (both `N = 0` and `N = 1`), even though the empty polymer makes
`summary` fail. -/
theorem validate_short (p : Polymer2D) (h : p.N ≤ 1) :
    p.validate = Except.ok () ∧ (Polymer2D.mk []).summary = none := by
  refine ⟨?_, rfl⟩
  apply (validate_ok_chain_iff p).2
  rcases hl : p.coords with - | ⟨a, t⟩
  · exact ⟨List.nodup_nil, List.chain'_nil⟩
  · rcases t with - | ⟨b, r⟩
    · simp
    · rw [Polymer2D.N, hl] at h
      simp at h

/-- C10 witness: the empty polymer and a one-monomer polymer both validate. -/
theorem validate_short_witness :
    ((Polymer2D.mk [(5, 7)]).N ≤ 1 ∧
      (Polymer2D.mk [(5, 7)]).validate = Except.ok () ∧
      (Polymer2D.mk []).summary = none) ∧
    (Polymer2D.mk []).validate = Except.ok () :=
  ⟨⟨by decide, validate_short ⟨[(5, 7)]⟩ (by decide)⟩,
   (validate_short ⟨[]⟩ (by decide)).1⟩

example : manhattan (0, 0) (3, 4) = 7 := by decide
example : (Polymer2D.mk [(0,0),(1,0),(1,0)]).validate = Except.error ValidateError.overlap := rfl
example : (Polymer2D.mk [(0,0),(1,0),(3,0)]).validate
    = Except.error (ValidateError.brokenBond 1 (1,0) (3,0)) := rfl
example : (Polymer2D.mk [(0,0),(1,0),(1,1)]).validate = Except.ok () := rfl
example : straight_chain 3 = Except.ok ⟨[(0,0),(1,0),(2,0)]⟩ := rfl
example : straight_chain (-2) = Except.ok ⟨[]⟩ := rfl
example : (Polymer2D.mk (chainCoords 5)).summary
    = some ⟨5, (0,0), (4,0), 0, 4, 0, 0⟩ := by decide
example : (Polymer2D.mk []).summary = none := by decide
example : mainEllipsis ⟨chainCoords 12⟩ = true := by decide
example : (Polymer2D.mk (chainCoords 12)).bonds.length = 11 := by decide
